import Mathlib

/-!
Verification of the mesh-data core of the Magnum repository: format
metadata (`Mesh.h` / `Mesh.cpp`), the attribute / index descriptors and the
mesh container (`MeshData.h`).  Enum values are embedded as their underlying
`Nat` codes (the C++ enums are backed by `UnsignedInt` / `UnsignedShort`),
fallible operations (`CORRADE_ASSERT` paths) return `Option` / `Except`.
-/

namespace Magnum

/- The `VertexFormat` enum from `Mesh.h`, embedded as the underlying
`UnsignedInt` codes.  Value 0 is reserved invalid; the named generic values
are 1..52 in declaration order. -/
namespace VertexFormat

def Float : Nat := 1
def Half : Nat := 2
def Double : Nat := 3
def UnsignedByte : Nat := 4
def UnsignedByteNormalized : Nat := 5
def Byte : Nat := 6
def ByteNormalized : Nat := 7
def UnsignedShort : Nat := 8
def UnsignedShortNormalized : Nat := 9
def Short : Nat := 10
def ShortNormalized : Nat := 11
def UnsignedInt : Nat := 12
def Int : Nat := 13
def Vector2 : Nat := 14
def Vector2h : Nat := 15
def Vector2d : Nat := 16
def Vector2ub : Nat := 17
def Vector2ubNormalized : Nat := 18
def Vector2b : Nat := 19
def Vector2bNormalized : Nat := 20
def Vector2us : Nat := 21
def Vector2usNormalized : Nat := 22
def Vector2s : Nat := 23
def Vector2sNormalized : Nat := 24
def Vector2ui : Nat := 25
def Vector2i : Nat := 26
def Vector3 : Nat := 27
def Vector3h : Nat := 28
def Vector3d : Nat := 29
def Vector3ub : Nat := 30
def Vector3ubNormalized : Nat := 31
def Vector3b : Nat := 32
def Vector3bNormalized : Nat := 33
def Vector3us : Nat := 34
def Vector3usNormalized : Nat := 35
def Vector3s : Nat := 36
def Vector3sNormalized : Nat := 37
def Vector3ui : Nat := 38
def Vector3i : Nat := 39
def Vector4 : Nat := 40
def Vector4h : Nat := 41
def Vector4d : Nat := 42
def Vector4ub : Nat := 43
def Vector4ubNormalized : Nat := 44
def Vector4b : Nat := 45
def Vector4bNormalized : Nat := 46
def Vector4us : Nat := 47
def Vector4usNormalized : Nat := 48
def Vector4s : Nat := 49
def Vector4sNormalized : Nat := 50
def Vector4ui : Nat := 51
def Vector4i : Nat := 52

end VertexFormat

/-- `isVertexFormatImplementationSpecific` from `Mesh.h`: tests the highest
bit of the 32-bit enum value. -/
def isVertexFormatImplementationSpecific (format : Nat) : Bool :=
  format &&& (2 ^ 31) ≠ 0

/-- `vertexFormatWrap` from `Mesh.h`: expects the highest bit clear, sets it.
The assertion path is modelled as `none`. -/
def vertexFormatWrap (implementationSpecific : Nat) : Option Nat :=
  if implementationSpecific &&& (2 ^ 31) ≠ 0 then none
  else some ((2 ^ 31) ||| implementationSpecific)

/-- `vertexFormatUnwrap` from `Mesh.h`: expects the highest bit set, clears
it (`& ~(1u << 31)`, i.e. masking with `0x7fffffff = 2^31 - 1`). -/
def vertexFormatUnwrap (format : Nat) : Option Nat :=
  if format &&& (2 ^ 31) = 0 then none
  else some (format &&& (2 ^ 31 - 1))

/-- `meshIndexTypeSize` from `Mesh.cpp`; `MeshIndexType` codes are
`UnsignedByte = 1`, `UnsignedShort = 2`, `UnsignedInt = 3`, everything else
hits the invalid-type assertion. -/
def meshIndexTypeSize (type : Nat) : Option Nat :=
  if type = 1 then some 1
  else if type = 2 then some 2
  else if type = 3 then some 4
  else none

/-- `vertexFormatSize` from `Mesh.cpp`: byte size of the whole vector;
invalid and implementation-specific values hit the assertion (`none`). -/
def vertexFormatSize (format : Nat) : Option Nat :=
  if format ∈ [VertexFormat.UnsignedByte, VertexFormat.UnsignedByteNormalized,
      VertexFormat.Byte, VertexFormat.ByteNormalized] then some 1
  else if format ∈ [VertexFormat.Half, VertexFormat.UnsignedShort,
      VertexFormat.UnsignedShortNormalized, VertexFormat.Short,
      VertexFormat.ShortNormalized, VertexFormat.Vector2ub,
      VertexFormat.Vector2ubNormalized, VertexFormat.Vector2b,
      VertexFormat.Vector2bNormalized] then some 2
  else if format ∈ [VertexFormat.Vector3ub, VertexFormat.Vector3ubNormalized,
      VertexFormat.Vector3b, VertexFormat.Vector3bNormalized] then some 3
  else if format ∈ [VertexFormat.Float, VertexFormat.UnsignedInt,
      VertexFormat.Int, VertexFormat.Vector2h, VertexFormat.Vector2us,
      VertexFormat.Vector2usNormalized, VertexFormat.Vector2s,
      VertexFormat.Vector2sNormalized, VertexFormat.Vector4ub,
      VertexFormat.Vector4ubNormalized, VertexFormat.Vector4b,
      VertexFormat.Vector4bNormalized] then some 4
  else if format ∈ [VertexFormat.Vector3h, VertexFormat.Vector3us,
      VertexFormat.Vector3usNormalized, VertexFormat.Vector3s,
      VertexFormat.Vector3sNormalized] then some 6
  else if format ∈ [VertexFormat.Double, VertexFormat.Vector2,
      VertexFormat.Vector2ui, VertexFormat.Vector2i, VertexFormat.Vector4h,
      VertexFormat.Vector4us, VertexFormat.Vector4usNormalized,
      VertexFormat.Vector4s, VertexFormat.Vector4sNormalized] then some 8
  else if format ∈ [VertexFormat.Vector3, VertexFormat.Vector3ui,
      VertexFormat.Vector3i] then some 12
  else if format ∈ [VertexFormat.Vector2d, VertexFormat.Vector4,
      VertexFormat.Vector4ui, VertexFormat.Vector4i] then some 16
  else if format = VertexFormat.Vector3d then some 24
  else if format = VertexFormat.Vector4d then some 32
  else none

/-- `vertexFormatComponentCount` from `Mesh.cpp`. -/
def vertexFormatComponentCount (format : Nat) : Option Nat :=
  if format ∈ [VertexFormat.Float, VertexFormat.Half, VertexFormat.Double,
      VertexFormat.UnsignedByte, VertexFormat.UnsignedByteNormalized,
      VertexFormat.Byte, VertexFormat.ByteNormalized,
      VertexFormat.UnsignedShort, VertexFormat.UnsignedShortNormalized,
      VertexFormat.Short, VertexFormat.ShortNormalized,
      VertexFormat.UnsignedInt, VertexFormat.Int] then some 1
  else if format ∈ [VertexFormat.Vector2, VertexFormat.Vector2h,
      VertexFormat.Vector2d, VertexFormat.Vector2ub,
      VertexFormat.Vector2ubNormalized, VertexFormat.Vector2b,
      VertexFormat.Vector2bNormalized, VertexFormat.Vector2us,
      VertexFormat.Vector2usNormalized, VertexFormat.Vector2s,
      VertexFormat.Vector2sNormalized, VertexFormat.Vector2ui,
      VertexFormat.Vector2i] then some 2
  else if format ∈ [VertexFormat.Vector3, VertexFormat.Vector3h,
      VertexFormat.Vector3d, VertexFormat.Vector3ub,
      VertexFormat.Vector3ubNormalized, VertexFormat.Vector3b,
      VertexFormat.Vector3bNormalized, VertexFormat.Vector3us,
      VertexFormat.Vector3usNormalized, VertexFormat.Vector3s,
      VertexFormat.Vector3sNormalized, VertexFormat.Vector3ui,
      VertexFormat.Vector3i] then some 3
  else if format ∈ [VertexFormat.Vector4, VertexFormat.Vector4h,
      VertexFormat.Vector4d, VertexFormat.Vector4ub,
      VertexFormat.Vector4ubNormalized, VertexFormat.Vector4b,
      VertexFormat.Vector4bNormalized, VertexFormat.Vector4us,
      VertexFormat.Vector4usNormalized, VertexFormat.Vector4s,
      VertexFormat.Vector4sNormalized, VertexFormat.Vector4ui,
      VertexFormat.Vector4i] then some 4
  else none

/-- `vertexFormatComponentFormat` from `Mesh.cpp`: strips the component
count and normalization, returning the scalar base type. -/
def vertexFormatComponentFormat (format : Nat) : Option Nat :=
  if format ∈ [VertexFormat.Float, VertexFormat.Vector2, VertexFormat.Vector3,
      VertexFormat.Vector4] then some VertexFormat.Float
  else if format ∈ [VertexFormat.Half, VertexFormat.Vector2h,
      VertexFormat.Vector3h, VertexFormat.Vector4h] then some VertexFormat.Half
  else if format ∈ [VertexFormat.Double, VertexFormat.Vector2d,
      VertexFormat.Vector3d, VertexFormat.Vector4d] then some VertexFormat.Double
  else if format ∈ [VertexFormat.UnsignedByte,
      VertexFormat.UnsignedByteNormalized, VertexFormat.Vector2ub,
      VertexFormat.Vector2ubNormalized, VertexFormat.Vector3ub,
      VertexFormat.Vector3ubNormalized, VertexFormat.Vector4ub,
      VertexFormat.Vector4ubNormalized] then some VertexFormat.UnsignedByte
  else if format ∈ [VertexFormat.Byte, VertexFormat.ByteNormalized,
      VertexFormat.Vector2b, VertexFormat.Vector2bNormalized,
      VertexFormat.Vector3b, VertexFormat.Vector3bNormalized,
      VertexFormat.Vector4b, VertexFormat.Vector4bNormalized] then
    some VertexFormat.Byte
  else if format ∈ [VertexFormat.UnsignedShort,
      VertexFormat.UnsignedShortNormalized, VertexFormat.Vector2us,
      VertexFormat.Vector2usNormalized, VertexFormat.Vector3us,
      VertexFormat.Vector3usNormalized, VertexFormat.Vector4us,
      VertexFormat.Vector4usNormalized] then some VertexFormat.UnsignedShort
  else if format ∈ [VertexFormat.Short, VertexFormat.ShortNormalized,
      VertexFormat.Vector2s, VertexFormat.Vector2sNormalized,
      VertexFormat.Vector3s, VertexFormat.Vector3sNormalized,
      VertexFormat.Vector4s, VertexFormat.Vector4sNormalized] then
    some VertexFormat.Short
  else if format ∈ [VertexFormat.UnsignedInt, VertexFormat.Vector2ui,
      VertexFormat.Vector3ui, VertexFormat.Vector4ui] then
    some VertexFormat.UnsignedInt
  else if format ∈ [VertexFormat.Int, VertexFormat.Vector2i,
      VertexFormat.Vector3i, VertexFormat.Vector4i] then some VertexFormat.Int
  else none

/-- `isVertexFormatNormalized` from `Mesh.cpp`: true exactly for the 16
explicitly-normalized integer variants. -/
def isVertexFormatNormalized (format : Nat) : Option Bool :=
  if format ∈ [VertexFormat.Float, VertexFormat.Half, VertexFormat.Double,
      VertexFormat.UnsignedByte, VertexFormat.Byte, VertexFormat.UnsignedShort,
      VertexFormat.Short, VertexFormat.UnsignedInt, VertexFormat.Int,
      VertexFormat.Vector2, VertexFormat.Vector2h, VertexFormat.Vector2d,
      VertexFormat.Vector2ub, VertexFormat.Vector2b, VertexFormat.Vector2us,
      VertexFormat.Vector2s, VertexFormat.Vector2ui, VertexFormat.Vector2i,
      VertexFormat.Vector3, VertexFormat.Vector3h, VertexFormat.Vector3d,
      VertexFormat.Vector3ub, VertexFormat.Vector3b, VertexFormat.Vector3us,
      VertexFormat.Vector3s, VertexFormat.Vector3ui, VertexFormat.Vector3i,
      VertexFormat.Vector4, VertexFormat.Vector4h, VertexFormat.Vector4d,
      VertexFormat.Vector4ub, VertexFormat.Vector4b, VertexFormat.Vector4us,
      VertexFormat.Vector4s, VertexFormat.Vector4ui, VertexFormat.Vector4i]
    then some false
  else if format ∈ [VertexFormat.UnsignedByteNormalized,
      VertexFormat.ByteNormalized, VertexFormat.UnsignedShortNormalized,
      VertexFormat.ShortNormalized, VertexFormat.Vector2ubNormalized,
      VertexFormat.Vector2bNormalized, VertexFormat.Vector2usNormalized,
      VertexFormat.Vector2sNormalized, VertexFormat.Vector3ubNormalized,
      VertexFormat.Vector3bNormalized, VertexFormat.Vector3usNormalized,
      VertexFormat.Vector3sNormalized, VertexFormat.Vector4ubNormalized,
      VertexFormat.Vector4bNormalized, VertexFormat.Vector4usNormalized,
      VertexFormat.Vector4sNormalized] then some true
  else none

/-- The assembly operation `vertexFormat(format, componentCount, normalized)`
from `Mesh.cpp`: takes the component format of `format`, optionally turns it
into the normalized variant (only 8- and 16-bit integer component types have
one), then shifts it into the requested component-count block by enum
arithmetic (`Vector2 + componentFormat - Float` etc.; the additions stay far
below `2^32` so plain `Nat` arithmetic coincides with the C++ `UnsignedInt`
arithmetic).  Every `CORRADE_ASSERT` path is `none`. -/
def vertexFormatNormalizedCounterpart (componentFormat : Nat) : Option Nat :=
  if componentFormat = VertexFormat.UnsignedByte then
    some VertexFormat.UnsignedByteNormalized
  else if componentFormat = VertexFormat.Byte then
    some VertexFormat.ByteNormalized
  else if componentFormat = VertexFormat.UnsignedShort then
    some VertexFormat.UnsignedShortNormalized
  else if componentFormat = VertexFormat.Short then
    some VertexFormat.ShortNormalized
  else none

def vertexFormat (format : Nat) (componentCount : Nat) (normalized : Bool) :
    Option Nat :=
  match vertexFormatComponentFormat format with
  | none => none
  | some cf0 =>
    match (if normalized then vertexFormatNormalizedCounterpart cf0
           else some cf0) with
    | none => none
    | some cf =>
      if componentCount = 1 then some cf
      else if componentCount = 2 then
        some (VertexFormat.Vector2 + cf - VertexFormat.Float)
      else if componentCount = 3 then
        some (VertexFormat.Vector3 + cf - VertexFormat.Float)
      else if componentCount = 4 then
        some (VertexFormat.Vector4 + cf - VertexFormat.Float)
      else none

/-- The element types supported by the `Implementation::vertexFormatFor<T>`
template specializations in `MeshData.h` (36 numeric scalar/vector types
plus the 8 color types); constructor names mirror the C++ type names. -/
inductive AttributeType where
  | Float | Half | Double
  | UnsignedByte | Byte | UnsignedShort | Short | UnsignedInt | Int
  | Vector2 | Vector2h | Vector2d
  | Vector2ub | Vector2b | Vector2us | Vector2s | Vector2ui | Vector2i
  | Vector3 | Vector3h | Vector3d
  | Vector3ub | Vector3b | Vector3us | Vector3s | Vector3ui | Vector3i
  | Vector4 | Vector4h | Vector4d
  | Vector4ub | Vector4b | Vector4us | Vector4s | Vector4ui | Vector4i
  | Color3 | Color3h | Color3ub | Color3us
  | Color4 | Color4h | Color4ub | Color4us
deriving DecidableEq, Fintype

/-- `Implementation::vertexFormatFor<T>` from `MeshData.h`: the fixed
compile-time mapping from an element type to a `VertexFormat`. -/
def vertexFormatFor : AttributeType → Nat
  | .Float => VertexFormat.Float
  | .Half => VertexFormat.Half
  | .Double => VertexFormat.Double
  | .UnsignedByte => VertexFormat.UnsignedByte
  | .Byte => VertexFormat.Byte
  | .UnsignedShort => VertexFormat.UnsignedShort
  | .Short => VertexFormat.Short
  | .UnsignedInt => VertexFormat.UnsignedInt
  | .Int => VertexFormat.Int
  | .Vector2 => VertexFormat.Vector2
  | .Vector2h => VertexFormat.Vector2h
  | .Vector2d => VertexFormat.Vector2d
  | .Vector2ub => VertexFormat.Vector2ub
  | .Vector2b => VertexFormat.Vector2b
  | .Vector2us => VertexFormat.Vector2us
  | .Vector2s => VertexFormat.Vector2s
  | .Vector2ui => VertexFormat.Vector2ui
  | .Vector2i => VertexFormat.Vector2i
  | .Vector3 => VertexFormat.Vector3
  | .Vector3h => VertexFormat.Vector3h
  | .Vector3d => VertexFormat.Vector3d
  | .Vector3ub => VertexFormat.Vector3ub
  | .Vector3b => VertexFormat.Vector3b
  | .Vector3us => VertexFormat.Vector3us
  | .Vector3s => VertexFormat.Vector3s
  | .Vector3ui => VertexFormat.Vector3ui
  | .Vector3i => VertexFormat.Vector3i
  | .Vector4 => VertexFormat.Vector4
  | .Vector4h => VertexFormat.Vector4h
  | .Vector4d => VertexFormat.Vector4d
  | .Vector4ub => VertexFormat.Vector4ub
  | .Vector4b => VertexFormat.Vector4b
  | .Vector4us => VertexFormat.Vector4us
  | .Vector4s => VertexFormat.Vector4s
  | .Vector4ui => VertexFormat.Vector4ui
  | .Vector4i => VertexFormat.Vector4i
  | .Color3 => VertexFormat.Vector3
  | .Color3h => VertexFormat.Vector3h
  | .Color3ub => VertexFormat.Vector3ubNormalized
  | .Color3us => VertexFormat.Vector3usNormalized
  | .Color4 => VertexFormat.Vector4
  | .Color4h => VertexFormat.Vector4h
  | .Color4ub => VertexFormat.Vector4ubNormalized
  | .Color4us => VertexFormat.Vector4usNormalized

/-- The identically-named `VertexFormat` of an element type, when one
exists.  This definition follows the spec's words ("numeric scalar/vector
types map to the identically-named format"): each of the 36 numeric types
names the `VertexFormat` enum value of the same name, while the color types
name no `VertexFormat` (there is no `VertexFormat::Color3ub` etc.).  It is
the reference against which the code's `vertexFormatFor` table is
compared. -/
def identicallyNamedVertexFormat : AttributeType → Option Nat
  | .Float => some VertexFormat.Float
  | .Half => some VertexFormat.Half
  | .Double => some VertexFormat.Double
  | .UnsignedByte => some VertexFormat.UnsignedByte
  | .Byte => some VertexFormat.Byte
  | .UnsignedShort => some VertexFormat.UnsignedShort
  | .Short => some VertexFormat.Short
  | .UnsignedInt => some VertexFormat.UnsignedInt
  | .Int => some VertexFormat.Int
  | .Vector2 => some VertexFormat.Vector2
  | .Vector2h => some VertexFormat.Vector2h
  | .Vector2d => some VertexFormat.Vector2d
  | .Vector2ub => some VertexFormat.Vector2ub
  | .Vector2b => some VertexFormat.Vector2b
  | .Vector2us => some VertexFormat.Vector2us
  | .Vector2s => some VertexFormat.Vector2s
  | .Vector2ui => some VertexFormat.Vector2ui
  | .Vector2i => some VertexFormat.Vector2i
  | .Vector3 => some VertexFormat.Vector3
  | .Vector3h => some VertexFormat.Vector3h
  | .Vector3d => some VertexFormat.Vector3d
  | .Vector3ub => some VertexFormat.Vector3ub
  | .Vector3b => some VertexFormat.Vector3b
  | .Vector3us => some VertexFormat.Vector3us
  | .Vector3s => some VertexFormat.Vector3s
  | .Vector3ui => some VertexFormat.Vector3ui
  | .Vector3i => some VertexFormat.Vector3i
  | .Vector4 => some VertexFormat.Vector4
  | .Vector4h => some VertexFormat.Vector4h
  | .Vector4d => some VertexFormat.Vector4d
  | .Vector4ub => some VertexFormat.Vector4ub
  | .Vector4b => some VertexFormat.Vector4b
  | .Vector4us => some VertexFormat.Vector4us
  | .Vector4s => some VertexFormat.Vector4s
  | .Vector4ui => some VertexFormat.Vector4ui
  | .Vector4i => some VertexFormat.Vector4i
  | _ => none

/-- `Implementation::isVertexFormatCompatible<T>` from `MeshData.h`: mostly
the 1:1 `vertexFormatFor` mapping, except that the 16 (unsigned) 8- and
16-bit integer scalar/vector types match both their plain and their
`*Normalized` format. -/
def isVertexFormatCompatible (t : AttributeType) (format : Nat) : Bool :=
  match t with
  | .UnsignedByte => format == VertexFormat.UnsignedByte ||
      format == VertexFormat.UnsignedByteNormalized
  | .Byte => format == VertexFormat.Byte ||
      format == VertexFormat.ByteNormalized
  | .UnsignedShort => format == VertexFormat.UnsignedShort ||
      format == VertexFormat.UnsignedShortNormalized
  | .Short => format == VertexFormat.Short ||
      format == VertexFormat.ShortNormalized
  | .Vector2ub => format == VertexFormat.Vector2ub ||
      format == VertexFormat.Vector2ubNormalized
  | .Vector2b => format == VertexFormat.Vector2b ||
      format == VertexFormat.Vector2bNormalized
  | .Vector2us => format == VertexFormat.Vector2us ||
      format == VertexFormat.Vector2usNormalized
  | .Vector2s => format == VertexFormat.Vector2s ||
      format == VertexFormat.Vector2sNormalized
  | .Vector3ub => format == VertexFormat.Vector3ub ||
      format == VertexFormat.Vector3ubNormalized
  | .Vector3b => format == VertexFormat.Vector3b ||
      format == VertexFormat.Vector3bNormalized
  | .Vector3us => format == VertexFormat.Vector3us ||
      format == VertexFormat.Vector3usNormalized
  | .Vector3s => format == VertexFormat.Vector3s ||
      format == VertexFormat.Vector3sNormalized
  | .Vector4ub => format == VertexFormat.Vector4ub ||
      format == VertexFormat.Vector4ubNormalized
  | .Vector4b => format == VertexFormat.Vector4b ||
      format == VertexFormat.Vector4bNormalized
  | .Vector4us => format == VertexFormat.Vector4us ||
      format == VertexFormat.Vector4usNormalized
  | .Vector4s => format == VertexFormat.Vector4s ||
      format == VertexFormat.Vector4sNormalized
  | t => vertexFormatFor t == format

/- The `MeshAttribute` enum from `MeshData.h`, embedded as the underlying
`UnsignedShort` codes. -/
namespace MeshAttribute

def Position : Nat := 1
def Normal : Nat := 2
def TextureCoordinates : Nat := 3
def Color : Nat := 4
def Custom : Nat := 32768

end MeshAttribute

/-- `isMeshAttributeCustom` from `MeshData.h`: values at/above
`MeshAttribute::Custom` are custom. -/
def isMeshAttributeCustom (name : Nat) : Bool :=
  MeshAttribute.Custom ≤ name

/-- `Implementation::isVertexFormatCompatibleWithAttribute` from
`MeshData.h`: the fixed builtin name/format compatibility table.
Implementation-specific formats and custom names are always compatible. -/
def isVertexFormatCompatibleWithAttribute (name format : Nat) : Bool :=
  isVertexFormatImplementationSpecific format ||
  (name == MeshAttribute.Position &&
    (format ∈ [VertexFormat.Vector2, VertexFormat.Vector2h,
      VertexFormat.Vector2ub, VertexFormat.Vector2ubNormalized,
      VertexFormat.Vector2b, VertexFormat.Vector2bNormalized,
      VertexFormat.Vector2us, VertexFormat.Vector2usNormalized,
      VertexFormat.Vector2s, VertexFormat.Vector2sNormalized,
      VertexFormat.Vector3, VertexFormat.Vector3h,
      VertexFormat.Vector3ub, VertexFormat.Vector3ubNormalized,
      VertexFormat.Vector3b, VertexFormat.Vector3bNormalized,
      VertexFormat.Vector3us, VertexFormat.Vector3usNormalized,
      VertexFormat.Vector3s, VertexFormat.Vector3sNormalized] : Bool)) ||
  (name == MeshAttribute.Normal &&
    (format ∈ [VertexFormat.Vector3, VertexFormat.Vector3h,
      VertexFormat.Vector3bNormalized,
      VertexFormat.Vector3sNormalized] : Bool)) ||
  (name == MeshAttribute.Color &&
    (format ∈ [VertexFormat.Vector3, VertexFormat.Vector3h,
      VertexFormat.Vector3ubNormalized, VertexFormat.Vector3usNormalized,
      VertexFormat.Vector4, VertexFormat.Vector4h,
      VertexFormat.Vector4ubNormalized,
      VertexFormat.Vector4usNormalized] : Bool)) ||
  (name == MeshAttribute.TextureCoordinates &&
    (format ∈ [VertexFormat.Vector2, VertexFormat.Vector2h,
      VertexFormat.Vector2ub, VertexFormat.Vector2ubNormalized,
      VertexFormat.Vector2b, VertexFormat.Vector2bNormalized,
      VertexFormat.Vector2us, VertexFormat.Vector2usNormalized,
      VertexFormat.Vector2s, VertexFormat.Vector2sNormalized] : Bool)) ||
  isMeshAttributeCustom name

/-- `Implementation::isAttributeArrayAllowed` from `MeshData.h`. -/
def isAttributeArrayAllowed (name : Nat) : Bool :=
  isMeshAttributeCustom name

/-- The C++ conversion `UnsignedInt(x)` of a 64-bit signed value: value
modulo `2^32`. -/
def uint32Of (i : Int) : Nat :=
  (i % (2 ^ 32 : Int)).toNat

/-- The C++ conversion `Short(x)`: value modulo `2^16`, interpreted as a
two's-complement 16-bit signed value. -/
def int16Of (i : Int) : Int :=
  let u := i % (2 ^ 16 : Int)
  if u < 2 ^ 15 then u else u - 2 ^ 16

/-- The fields of `MeshAttributeData` from `MeshData.h` (`_data` is the
pointer/offset union, discriminated by `_isOffsetOnly`; a pointer is
embedded as a byte address). -/
structure MeshAttributeData where
  dataPtrOrOffset : Nat
  vertexCount : Nat
  format : Nat
  stride : Int
  name : Nat
  arraySize : Nat
  isOffsetOnly : Bool
deriving DecidableEq

/-- The offset-only `MeshAttributeData` constructor, `constexpr` in
`MeshData.h`: asserts `!(UnsignedInt(stride) & 0xffff8000)` ("expected
stride to be positive and at most 32k"), name/format compatibility, the
array-size rule and the no-array-with-implementation-specific-format rule,
in member-initializer order; the stride is stored as `Short(stride)`.  Note
the stride assertion is only the 32-bit-truncated mask test: it does not
compare the stride against the format's element size, and it accepts
stride 0. -/
def MeshAttributeData.offsetOnly (name format offset vertexCount : Nat)
    (stride : Int) (arraySize : Nat) : Except String MeshAttributeData :=
  if uint32Of stride &&& 0xffff8000 ≠ 0 then
    .error "Trade::MeshAttributeData: expected stride to be positive and at most 32k"
  else if ¬ isVertexFormatCompatibleWithAttribute name format then
    .error "Trade::MeshAttributeData: not a valid format for this name"
  else if arraySize ≠ 0 ∧ ¬ isAttributeArrayAllowed name then
    .error "Trade::MeshAttributeData: this name can't be an array attribute"
  else if arraySize ≠ 0 ∧ isVertexFormatImplementationSpecific format then
    .error "Trade::MeshAttributeData: array attributes can't have an implementation-specific format"
  else
    .ok ⟨offset, vertexCount, format, int16Of stride, name, arraySize, true⟩

/-- Whether a stride is large enough to fit one element of a format:
`vertexFormatSize(format)` times the array size (at least 1). -/
def strideFitsFormat (format arraySize : Nat) (stride : Int) : Bool :=
  match vertexFormatSize format with
  | some s => decide (((s * max arraySize 1 : Nat) : Int) ≤ stride)
  | none => false

/-- Modelled from the spec: the body of the public type-erased direct-mode
`MeshAttributeData` constructor lives in `MeshData.cpp`, which is not under
`src/` (only its declaration in `MeshData.h` and its test are).  Per the
spec it fails if the stride is non-positive, exceeds the 16-bit range, or
is smaller than one element's byte size for a non-implementation-specific
format (implementation-specific formats bypass the element-size check), and
then performs the same name/format-compatibility and array-size validation
as the offset-only constructor.  The element count and data pointer are
taken from the passed view. -/
def MeshAttributeData.direct (name format arraySize : Nat)
    (dataPtr dataVertexCount : Nat) (stride : Int) :
    Except String MeshAttributeData :=
  if ¬ (0 < stride ∧ stride ≤ 32767) then
    .error "Trade::MeshAttributeData: expected stride to be positive and at most 32k"
  else if ¬ isVertexFormatImplementationSpecific format ∧
      ¬ strideFitsFormat format arraySize stride then
    .error "Trade::MeshAttributeData: expected stride to be positive and enough to fit the format"
  else if ¬ isVertexFormatCompatibleWithAttribute name format then
    .error "Trade::MeshAttributeData: not a valid format for this name"
  else if arraySize ≠ 0 ∧ ¬ isAttributeArrayAllowed name then
    .error "Trade::MeshAttributeData: this name can't be an array attribute"
  else if arraySize ≠ 0 ∧ isVertexFormatImplementationSpecific format then
    .error "Trade::MeshAttributeData: array attributes can't have an implementation-specific format"
  else
    .ok ⟨dataPtr, dataVertexCount, format, stride, name, arraySize, false⟩

/-- The `DataFlags` from `Trade/Data.h`: `Owned` and `Mutable` bits. -/
structure DataFlags where
  owned : Bool
  mutableData : Bool
deriving DecidableEq

/-- A byte buffer with its base address (`Containers::Array<char>` /
`Containers::ArrayView<const void>`, with the pointer embedded as an
address so containment of sub-views can be expressed). -/
structure Buffer where
  base : Nat
  bytes : List Nat
deriving DecidableEq

/-- A type-erased view: pointer address plus byte length
(`Containers::ArrayView<const void>`). -/
structure DataView where
  ptr : Nat
  byteLength : Nat
deriving DecidableEq

/-- The fields of `MeshIndexData` from `MeshData.h`: a `MeshIndexType` code
(0 = empty, mesh not indexed) and the type-erased view. -/
structure MeshIndexData where
  type : Nat
  view : DataView
deriving DecidableEq

/-- The `MeshIndexData(std::nullptr_t)` constructor from `MeshData.h`:
zero type, empty view — the non-indexed marker. -/
def MeshIndexData.null : MeshIndexData := ⟨0, ⟨0, 0⟩⟩

/-- Modelled from the spec: the body of
`MeshIndexData(MeshIndexType, ArrayView<const void>)` lives in
`MeshData.cpp`, which is not under `src/`.  Per the spec it fails when the
byte length is not a multiple of the element size of the index type (an
invalid type hits the `meshIndexTypeSize` assertion); an empty view is
fine and keeps the concrete type. -/
def MeshIndexData.make (type : Nat) (data : DataView) :
    Except String MeshIndexData :=
  match meshIndexTypeSize type with
  | none => .error "meshIndexTypeSize(): invalid type"
  | some s =>
    if data.byteLength % s ≠ 0 then
      .error "Trade::MeshIndexData: view size does not correspond to the index type"
    else .ok ⟨type, data⟩

/-- The construction-time violations of the Mesh Container, with the data
the failure message carries (for range violations, both the offending and
the expected byte range, as half-open address intervals). -/
inductive MeshDataError where
  | indicesNotContained (indexRange bufferRange : Nat × Nat)
  | attributeNotContained (id : Nat) (attributeRange bufferRange : Nat × Nat)
  | inconsistentVertexCount (id : Nat) (expected actual : Nat)
  | paddingAttribute (id : Nat)
  | noVertexCountSource
deriving DecidableEq

def bufferRange (b : Buffer) : Nat × Nat :=
  (b.base, b.base + b.bytes.length)

def viewContained (b : Buffer) (v : DataView) : Bool :=
  b.base ≤ v.ptr && v.ptr + v.byteLength ≤ b.base + b.bytes.length

/-- The absolute address of an attribute's first element: the stored
pointer for a direct attribute, base plus stored offset for an offset-only
one. -/
def MeshAttributeData.resolvedPtr (a : MeshAttributeData)
    (vertexBase : Nat) : Nat :=
  if a.isOffsetOnly then vertexBase + a.dataPtrOrOffset
  else a.dataPtrOrOffset

/-- The resolved byte range of an attribute, `vertexCount` elements of
`stride` bytes each from its first element (matching the ranges printed by
the containment assertion in the test). -/
def attributeRange (b : Buffer) (a : MeshAttributeData) : Nat × Nat :=
  let p := a.resolvedPtr b.base
  (p, p + a.vertexCount * a.stride.toNat)

def attributeContained (b : Buffer) (a : MeshAttributeData) : Bool :=
  b.base ≤ (attributeRange b a).1 &&
    (attributeRange b a).2 ≤ b.base + b.bytes.length

/-- The per-attribute construction checks of the Mesh Container, run over
the attribute list in order with `i` the index of the first attribute;
reports the first violation: a bare padding marker (zero name and format),
an element count differing from the container's vertex count, or a
resolved byte range not contained in the vertex buffer. -/
def checkAttributes (vertexBuffer : Buffer) (vc : Nat) :
    Nat → List MeshAttributeData → Option MeshDataError
  | _, [] => none
  | i, a :: rest =>
    if a.format = 0 ∧ a.name = 0 then some (.paddingAttribute i)
    else if a.vertexCount ≠ vc then
      some (.inconsistentVertexCount i vc a.vertexCount)
    else if ¬ attributeContained vertexBuffer a then
      some (.attributeNotContained i (attributeRange vertexBuffer a)
        (bufferRange vertexBuffer))
    else checkAttributes vertexBuffer vc (i + 1) rest

/-- The vertex count a Mesh Container derives from its attribute list: the
first attribute's element count, or 0 when attribute-less. -/
def meshVertexCountOf : List MeshAttributeData → Nat
  | [] => 0
  | a :: _ => a.vertexCount

/-- The fields of `MeshData` from `MeshData.h`.  The index and vertex
buffers keep their base address and bytes, the unpacked `_indices` view is
kept as offset and byte length relative to the index buffer. -/
structure MeshData where
  primitive : Nat
  vertexCount : Nat
  indexType : Nat
  indexDataFlags : DataFlags
  vertexDataFlags : DataFlags
  indexBase : Nat
  indexBytes : List Nat
  indicesOffset : Nat
  indicesByteLength : Nat
  vertexBase : Nat
  vertexBytes : List Nat
  attributes : List MeshAttributeData
deriving DecidableEq

/-- Modelled from the spec: the core `MeshData` constructor body lives in
`MeshData.cpp`, which is not under `src/` (only its declaration, the field
layout and the tests are).  Per the spec it checks, in order: when indexed,
that the index view lies within the index buffer (failing with both byte
ranges); that an attribute-less mesh is indexed (otherwise the vertex count
has no source — the explicit-vertex-count convenience constructor is not
modelled); and for each attribute in order the padding / consistent-count /
containment invariants, failing with the attribute's index and the byte
ranges involved.  The vertex count is taken from the first attribute. -/
def MeshData.construct (primitive : Nat) (indexDataFlags : DataFlags)
    (indexBuffer : Buffer) (indices : MeshIndexData)
    (vertexDataFlags : DataFlags) (vertexBuffer : Buffer)
    (attributes : List MeshAttributeData) : Except MeshDataError MeshData :=
  if indices.type ≠ 0 ∧ ¬ viewContained indexBuffer indices.view then
    .error (.indicesNotContained
      (indices.view.ptr, indices.view.ptr + indices.view.byteLength)
      (bufferRange indexBuffer))
  else if attributes = [] ∧ indices.type = 0 then .error .noVertexCountSource
  else
    match checkAttributes vertexBuffer (meshVertexCountOf attributes) 0
        attributes with
    | some e => .error e
    | none => .ok {
        primitive := primitive,
        vertexCount := meshVertexCountOf attributes,
        indexType := indices.type,
        indexDataFlags := indexDataFlags,
        vertexDataFlags := vertexDataFlags,
        indexBase := indexBuffer.base,
        indexBytes := indexBuffer.bytes,
        indicesOffset := indices.view.ptr - indexBuffer.base,
        indicesByteLength := indices.view.byteLength,
        vertexBase := vertexBuffer.base,
        vertexBytes := vertexBuffer.bytes,
        attributes := attributes }

/-- `MeshData::isIndexed` from `MeshData.h`: the index type is nonzero. -/
def MeshData.isIndexed (m : MeshData) : Bool :=
  m.indexType ≠ 0

/-- Modelled from the spec: `MeshData::indexCount` (body in
`MeshData.cpp`) — number of elements of the index view; expects that the
mesh is indexed. -/
def MeshData.indexCount (m : MeshData) : Except String Nat :=
  if m.indexType = 0 then
    .error "Trade::MeshData::indexCount(): the mesh is not indexed"
  else .ok (m.indicesByteLength / (meshIndexTypeSize m.indexType).getD 1)

/-- `MeshData::indexData`: the raw index buffer bytes. -/
def MeshData.indexData (m : MeshData) : List Nat := m.indexBytes

/-- `MeshData::vertexData`: the raw vertex buffer bytes. -/
def MeshData.vertexData (m : MeshData) : List Nat := m.vertexBytes

/-- Modelled from the spec: `MeshData::mutableIndexData` (body in
`MeshData.cpp`) — like `indexData`, but expects the index data to be
mutable. -/
def MeshData.mutableIndexData (m : MeshData) : Except String (List Nat) :=
  if m.indexDataFlags.mutableData then .ok m.indexBytes
  else .error "Trade::MeshData::mutableIndexData(): index data not mutable"

/-- Modelled from the spec: `MeshData::mutableVertexData` (body in
`MeshData.cpp`) — like `vertexData`, but expects the vertex data to be
mutable. -/
def MeshData.mutableVertexData (m : MeshData) : Except String (List Nat) :=
  if m.vertexDataFlags.mutableData then .ok m.vertexBytes
  else .error "Trade::MeshData::mutableVertexData(): vertex data not mutable"

def sliceBytes (bytes : List Nat) (off len : Nat) : List Nat :=
  (bytes.drop off).take len

/-- A strided 2D byte view resolved to its rows: `count` rows of `rowSize`
bytes, `stride` apart, starting at byte `off` of `bytes`. -/
def readRows (bytes : List Nat) (off stride rowSize count : Nat) :
    List (List Nat) :=
  (List.range count).map fun i => sliceBytes bytes (off + i * stride) rowSize

/-- Modelled from the spec: the untyped `MeshData::indices` (body in
`MeshData.cpp`) — a 2D view over the index view, rows = elements, row size
= index type size; empty for a non-indexed mesh. -/
def MeshData.indices (m : MeshData) : List (List Nat) :=
  if m.indexType = 0 then []
  else
    let s := (meshIndexTypeSize m.indexType).getD 1
    readRows m.indexBytes m.indicesOffset s s (m.indicesByteLength / s)

/-- Modelled from the spec: the untyped `MeshData::mutableIndices` (body in
`MeshData.cpp`) — like `indices`, but expects the index data to be
mutable. -/
def MeshData.mutableIndices (m : MeshData) :
    Except String (List (List Nat)) :=
  if m.indexDataFlags.mutableData then .ok m.indices
  else .error "Trade::MeshData::mutableIndices(): index data not mutable"

/-- Little-endian byte-list decoding, for reading multi-byte index /
component values out of the byte buffers. -/
def decodeLE : List Nat → Nat
  | [] => 0
  | b :: rest => b + 256 * decodeLE rest

/-- The typed `indices<T>()` from `MeshData.h`: expects `T` (given as its
`MeshIndexType` code) to match the stored index type; returns the decoded
elements. -/
def MeshData.indicesTyped (m : MeshData) (t : Nat) :
    Except String (List Nat) :=
  if t ≠ m.indexType then
    .error "Trade::MeshData::indices(): improper type requested"
  else .ok (m.indices.map decodeLE)

/-- The typed `mutableIndices<T>()` from `MeshData.h`: first obtains the
mutable untyped view (which expects the index data to be mutable), then
checks the type. -/
def MeshData.mutableIndicesTyped (m : MeshData) (t : Nat) :
    Except String (List Nat) :=
  if m.indexDataFlags.mutableData then m.indicesTyped t
  else .error "Trade::MeshData::mutableIndices(): index data not mutable"

/-- `MeshData::attributeCount`. -/
def MeshData.attributeCount (m : MeshData) : Nat :=
  m.attributes.length

/-- Modelled from the spec: `MeshData::attributeOffset` (body in
`MeshData.cpp`) — byte offset of the attribute's first element from the
beginning of the vertex data; expects a valid id. -/
def MeshData.attributeOffset (m : MeshData) (id : Nat) :
    Except String Nat :=
  match m.attributes[id]? with
  | none => .error "Trade::MeshData::attributeOffset(): index out of range"
  | some a => .ok (a.resolvedPtr m.vertexBase - m.vertexBase)

/-- The second-dimension size of the untyped attribute view: the format
size (times the array size for array attributes), or the stride for an
implementation-specific format. -/
def MeshData.attributeRowSize (a : MeshAttributeData) : Nat :=
  match vertexFormatSize a.format with
  | some s => s * max a.arraySize 1
  | none => a.stride.toNat

/-- Modelled from the spec: the untyped `MeshData::attribute` (body in
`MeshData.cpp`) — a 2D view with one row per vertex (the *container's*
vertex count, which is what makes the reported element count drop to zero
after `releaseVertexData`), rows `stride` apart starting at the attribute's
offset. -/
def MeshData.attribute (m : MeshData) (id : Nat) :
    Except String (List (List Nat)) :=
  match m.attributes[id]? with
  | none => .error "Trade::MeshData::attribute(): index out of range"
  | some a =>
    .ok (readRows m.vertexBytes (a.resolvedPtr m.vertexBase - m.vertexBase)
      a.stride.toNat (MeshData.attributeRowSize a) m.vertexCount)

/-- Modelled from the spec: the untyped `MeshData::mutableAttribute` (body
in `MeshData.cpp`) — like `attribute`, but expects the vertex data to be
mutable. -/
def MeshData.mutableAttribute (m : MeshData) (id : Nat) :
    Except String (List (List Nat)) :=
  if m.vertexDataFlags.mutableData then m.attribute id
  else .error "Trade::MeshData::mutableAttribute(): vertex data not mutable"

/-- The typed `attribute<T>()` from `MeshData.h` (scalar, non-array `T`):
expects the format to not be implementation-specific, `T` to be compatible
with the stored format, and the attribute to not be an array; the returned
view reinterprets the same bytes. -/
def MeshData.attributeTyped (m : MeshData) (id : Nat) (t : AttributeType) :
    Except String (List (List Nat)) :=
  match m.attributes[id]? with
  | none => .error "Trade::MeshData::attribute(): index out of range"
  | some a =>
    if isVertexFormatImplementationSpecific a.format then
      .error "Trade::MeshData::attribute(): can't cast data from an implementation-specific vertex format"
    else if ¬ isVertexFormatCompatible t a.format then
      .error "Trade::MeshData::attribute(): improper type requested"
    else if a.arraySize ≠ 0 then
      .error "Trade::MeshData::attribute(): use an array access for an array attribute"
    else m.attribute id

/-- The typed `mutableAttribute<T>()` from `MeshData.h`: first obtains the
mutable untyped view (which expects the vertex data to be mutable), then
performs the type-compatibility checks. -/
def MeshData.mutableAttributeTyped (m : MeshData) (id : Nat)
    (t : AttributeType) : Except String (List (List Nat)) :=
  if m.vertexDataFlags.mutableData then m.attributeTyped id t
  else .error "Trade::MeshData::mutableAttribute(): vertex data not mutable"

/-- Modelled from the spec: `MeshData::releaseVertexData` (body in
`MeshData.cpp`) — transfers the vertex bytes out and resets the container
to zero vertices with a zero-length vertex-data placeholder that keeps the
original base address (the non-null placeholder of the spec), leaving the
attribute metadata untouched. -/
def MeshData.releaseVertexData (m : MeshData) : List Nat × MeshData :=
  (m.vertexBytes, { m with vertexBytes := [], vertexCount := 0 })

/-- A two's-complement read of a `bits`-wide stored value. -/
def intOfTwosComplement (bits v : Nat) : Int :=
  if v < 2 ^ (bits - 1) then (v : Int) else (v : Int) - 2 ^ bits

/-- Unsigned-normalized decoding: `[0, 2^bits - 1]` mapped affinely onto
`[0.0, 1.0]`, i.e. the value divided by `2^bits - 1`. -/
def unpackUnsignedNormalized (bits v : Nat) : ℚ :=
  mkRat v (2 ^ bits - 1)

/-- Signed-normalized decoding: `[-(2^(bits-1) - 1), 2^(bits-1) - 1]`
mapped affinely onto `[-1.0, 1.0]`, the most negative value clamped. -/
def unpackSignedNormalized (bits v : Nat) : ℚ :=
  max (mkRat (intOfTwosComplement bits v) (2 ^ (bits - 1) - 1)) (-1)

/-- Modelled from the spec: the per-component decoding of the packed
integer vertex formats used by the `*AsArray` accessors (bodies in
`MeshData.cpp`), with rationals standing in for the exactly-representable
float results.  Float/half/double and 32-bit integer components are not
decoded by this model (the claims do not exercise them). -/
def decodeComponent (componentFormat : Nat) (normalized : Bool) (v : Nat) :
    Option ℚ :=
  if componentFormat = VertexFormat.UnsignedByte then
    some (if normalized then unpackUnsignedNormalized 8 v else (v : ℚ))
  else if componentFormat = VertexFormat.Byte then
    some (if normalized then unpackSignedNormalized 8 v
      else (intOfTwosComplement 8 v : ℚ))
  else if componentFormat = VertexFormat.UnsignedShort then
    some (if normalized then unpackUnsignedNormalized 16 v else (v : ℚ))
  else if componentFormat = VertexFormat.Short then
    some (if normalized then unpackSignedNormalized 16 v
      else (intOfTwosComplement 16 v : ℚ))
  else none

/-- Decoding one stored element (a row of the untyped attribute view) of a
2-or-more-component format into its first two components; little-endian
component storage. -/
def decodePosition2D (format : Nat) (row : List Nat) : Option (ℚ × ℚ) :=
  match vertexFormatComponentFormat format, vertexFormatComponentCount format,
      isVertexFormatNormalized format with
  | some cf, some cc, some n =>
    if cc < 2 then none
    else
      let compSize := (vertexFormatSize cf).getD 1
      match decodeComponent cf n (decodeLE (sliceBytes row 0 compSize)),
          decodeComponent cf n (decodeLE (sliceBytes row compSize compSize))
          with
      | some x, some y => some (x, y)
      | _, _ => none
  | _, _, _ => none

/-- Modelled from the spec: `MeshData::positions2DAsArray` (body in
`MeshData.cpp`) — finds the first `Position` attribute, reads every element
through the untyped view and decodes it to a canonical 2D vector,
truncating any third component.  Expects the position attribute to exist;
fails for formats the decoding model does not cover. -/
def MeshData.positions2DAsArray (m : MeshData) :
    Except String (List (ℚ × ℚ)) :=
  match m.attributes.findIdx? (fun a => a.name == MeshAttribute.Position)
      with
  | none =>
    .error "Trade::MeshData::positions2DAsArray(): the mesh has no positions"
  | some id =>
    match m.attributes[id]?, m.attribute id with
    | some a, .ok rows =>
      match rows.mapM (decodePosition2D a.format) with
      | some qs => .ok qs
      | none =>
        .error "Trade::MeshData::positions2DAsArray(): format not decodable in this model"
    | _, _ => .error "Trade::MeshData::positions2DAsArray(): out of range"

end Magnum

/-! ### Supporting lemmas -/

namespace Magnum

lemma and_two_pow_eq_zero_of_testBit_false {x i : Nat}
    (h : x.testBit i = false) : x &&& 2 ^ i = 0 := by
  apply Nat.eq_of_testBit_eq
  intro j
  simp only [Nat.testBit_and, Nat.zero_testBit]
  by_cases hj : i = j
  · subst hj
    simp [h]
  · simp [Nat.testBit_two_pow_of_ne hj]

lemma and_two_pow_ne_zero_of_testBit_true {x i : Nat}
    (h : x.testBit i = true) : x &&& 2 ^ i ≠ 0 := by
  intro h0
  have hb : (x &&& 2 ^ i).testBit i = true := by
    simp [Nat.testBit_and, h, Nat.testBit_two_pow_self]
  rw [h0, Nat.zero_testBit] at hb
  exact Bool.false_ne_true hb

lemma ge_of_and_two_pow_ne_zero {x i : Nat} (h : x &&& 2 ^ i ≠ 0) :
    2 ^ i ≤ x := by
  obtain ⟨j, hj⟩ := Nat.ne_zero_implies_bit_true h
  rw [Nat.testBit_and, Bool.and_eq_true] at hj
  have hij : i = j := by
    by_contra hne
    rw [Nat.testBit_two_pow_of_ne hne] at hj
    exact Bool.false_ne_true hj.2
  exact Nat.testBit_implies_ge (hij ▸ hj.1)

lemma not_mem_of_all_le_52 {f : Nat} {l : List Nat}
    (hl : ∀ x ∈ l, x ≤ 52) (h : 52 < f) : f ∉ l :=
  fun hm => absurd (hl f hm) (by omega)

lemma vertexFormatComponentFormat_none_of_gt {f : Nat} (h : 52 < f) :
    vertexFormatComponentFormat f = none := by
  unfold vertexFormatComponentFormat
  rw [if_neg (not_mem_of_all_le_52 (by decide) h),
    if_neg (not_mem_of_all_le_52 (by decide) h),
    if_neg (not_mem_of_all_le_52 (by decide) h),
    if_neg (not_mem_of_all_le_52 (by decide) h),
    if_neg (not_mem_of_all_le_52 (by decide) h),
    if_neg (not_mem_of_all_le_52 (by decide) h),
    if_neg (not_mem_of_all_le_52 (by decide) h),
    if_neg (not_mem_of_all_le_52 (by decide) h),
    if_neg (not_mem_of_all_le_52 (by decide) h)]

lemma lor_two_pow_mod {v : Nat} (hv : v < 2 ^ 31) :
    (2 ^ 31 ||| v) % 2 ^ 31 = v := by
  apply Nat.eq_of_testBit_eq
  intro j
  rw [Nat.testBit_mod_two_pow, Nat.testBit_or]
  by_cases hj : j < 31
  · simp [Nat.testBit_two_pow_of_ne (by omega : 31 ≠ j), hj]
  · have hvj : v.testBit j = false :=
      Nat.testBit_lt_two_pow (lt_of_lt_of_le hv (Nat.pow_le_pow_right (by omega) (by omega)))
    simp [hvj, hj]

lemma checkAttributes_none_contained {b : Buffer} {vc : Nat} :
    ∀ (k : Nat) (attrs : List MeshAttributeData),
      checkAttributes b vc k attrs = none →
      ∀ a ∈ attrs, attributeContained b a = true := by
  intro k attrs
  induction attrs generalizing k with
  | nil =>
    intro _ a ha
    simp at ha
  | cons hd tl ih =>
    intro h a ha
    rw [checkAttributes] at h
    split at h
    · exact Option.noConfusion h
    split at h
    · exact Option.noConfusion h
    split at h
    · exact Option.noConfusion h
    rename_i h1 h2 h3
    rcases List.mem_cons.mp ha with rfl | hmem
    · exact not_not.mp h3
    · exact ih (k + 1) h a hmem

lemma checkAttributes_first_not_contained {b : Buffer} {vc : Nat}
    (pre : List MeshAttributeData) (bad : MeshAttributeData)
    (post : List MeshAttributeData)
    (hpad : ¬(bad.format = 0 ∧ bad.name = 0))
    (hcnt : bad.vertexCount = vc)
    (hbad : attributeContained b bad = false) :
    ∀ k : Nat,
      (∀ x ∈ pre, ¬(x.format = 0 ∧ x.name = 0) ∧ x.vertexCount = vc ∧
        attributeContained b x = true) →
      checkAttributes b vc k (pre ++ bad :: post) =
        some (.attributeNotContained (k + pre.length) (attributeRange b bad)
          (bufferRange b)) := by
  induction pre with
  | nil =>
    intro k _
    simp only [List.nil_append, List.length_nil, Nat.add_zero]
    rw [checkAttributes, if_neg hpad, if_neg (not_not_intro hcnt),
      if_pos (by simp [hbad])]
  | cons p pre ih =>
    intro k hpre
    have hp := hpre p (List.mem_cons_self _ _)
    simp only [List.cons_append]
    rw [checkAttributes, if_neg hp.1, if_neg (not_not_intro hp.2.1),
      if_neg (not_not_intro hp.2.2),
      ih (k + 1) (fun x hx => hpre x (List.mem_cons_of_mem _ hx))]
    have harith : k + 1 + pre.length = k + (p :: pre).length := by
      simp [List.length_cons]
      omega
    rw [harith]

lemma construct_ok_inversion {primitive : Nat} {fI fV : DataFlags}
    {bI bV : Buffer} {idx : MeshIndexData} {attrs : List MeshAttributeData}
    {m : MeshData}
    (h : MeshData.construct primitive fI bI idx fV bV attrs = .ok m) :
    m = { primitive := primitive, vertexCount := meshVertexCountOf attrs,
          indexType := idx.type, indexDataFlags := fI,
          vertexDataFlags := fV, indexBase := bI.base,
          indexBytes := bI.bytes,
          indicesOffset := idx.view.ptr - bI.base,
          indicesByteLength := idx.view.byteLength,
          vertexBase := bV.base, vertexBytes := bV.bytes,
          attributes := attrs } := by
  rw [MeshData.construct] at h
  split at h
  · exact Except.noConfusion h
  split at h
  · exact Except.noConfusion h
  split at h
  · exact Except.noConfusion h
  injection h with h2
  exact h2.symm

end Magnum

/-! ### Claim theorems -/

namespace Magnum

/-- C1: for every valid generic vertex format `F` (a nonzero,
non-implementation-specific `VertexFormat` enum value, i.e. a code in
1..52), reassembling it from its queried parts yields the same format:
`vertexFormat (vertexFormatComponentFormat F) (vertexFormatComponentCount F)
(isVertexFormatNormalized F) = F`, with all three queries succeeding. -/
theorem vertexFormat_roundtrip (f : Nat) (h1 : 1 ≤ f) (h2 : f ≤ 52) :
    (do
      let cf ← vertexFormatComponentFormat f
      let cc ← vertexFormatComponentCount f
      let n ← isVertexFormatNormalized f
      vertexFormat cf cc n) = some f := by
  have h : ∀ g : Nat, g < 53 → 1 ≤ g →
      (do
        let cf ← vertexFormatComponentFormat g
        let cc ← vertexFormatComponentCount g
        let n ← isVertexFormatNormalized g
        vertexFormat cf cc n) = some g := by decide
  exact h f (by omega) h1

/-- C1 witness: the round trip at `VertexFormat::Vector2ubNormalized`
(code 18). -/
theorem vertexFormat_roundtrip_witness :
    1 ≤ 18 ∧ 18 ≤ 52 ∧
    (do
      let cf ← vertexFormatComponentFormat 18
      let cc ← vertexFormatComponentCount 18
      let n ← isVertexFormatNormalized 18
      vertexFormat cf cc n) = some 18 :=
  ⟨by decide, by decide, vertexFormat_roundtrip 18 (by decide) (by decide)⟩

/-- C7: for every value `v` below `2^31`, `vertexFormatUnwrap
(vertexFormatWrap v) = v`; `vertexFormatWrap` fails for any value with bit
31 already set (an already implementation-specific value); and
`vertexFormatUnwrap` fails for any format whose top bit is not set, i.e.
every generic format. -/
theorem vertexFormatWrap_unwrap :
    (∀ v : Nat, v < 2 ^ 31 →
      (vertexFormatWrap v).bind vertexFormatUnwrap = some v) ∧
    (∀ v : Nat, isVertexFormatImplementationSpecific v = true →
      vertexFormatWrap v = none) ∧
    (∀ f : Nat, isVertexFormatImplementationSpecific f = false →
      vertexFormatUnwrap f = none) := by
  refine ⟨fun v hv => ?_, fun v hv => ?_, fun f hf => ?_⟩
  · have hzero : v &&& 2 ^ 31 = 0 :=
      and_two_pow_eq_zero_of_testBit_false (Nat.testBit_lt_two_pow hv)
    have htop : (2 ^ 31 ||| v).testBit 31 = true := by
      simp only [Nat.testBit_or, Bool.or_eq_true]
      exact Or.inl (by decide)
    rw [vertexFormatWrap, if_neg (not_not_intro hzero)]
    rw [Option.some_bind, vertexFormatUnwrap,
      if_neg (and_two_pow_ne_zero_of_testBit_true htop),
      Nat.and_pow_two_sub_one_eq_mod, lor_two_pow_mod hv]
  · have : v &&& 2 ^ 31 ≠ 0 := by
      simpa [isVertexFormatImplementationSpecific] using hv
    rw [vertexFormatWrap, if_pos this]
  · have : f &&& 2 ^ 31 = 0 := by
      simpa [isVertexFormatImplementationSpecific] using hf
    rw [vertexFormatUnwrap, if_pos this]

/-- C7 witness: the round trip at `v = 0xdead`, a failing wrap at `2^31`
(bit 31 set), and a failing unwrap at the generic format code 7. -/
theorem vertexFormatWrap_unwrap_witness :
    ((0xdead : Nat) < 2 ^ 31 ∧
      (vertexFormatWrap 0xdead).bind vertexFormatUnwrap = some 0xdead) ∧
    (isVertexFormatImplementationSpecific (2 ^ 31) = true ∧
      vertexFormatWrap (2 ^ 31) = none) ∧
    (isVertexFormatImplementationSpecific 7 = false ∧
      vertexFormatUnwrap 7 = none) :=
  ⟨⟨by decide, vertexFormatWrap_unwrap.1 0xdead (by decide)⟩,
   ⟨by decide, vertexFormatWrap_unwrap.2.1 (2 ^ 31) (by decide)⟩,
   ⟨by decide, vertexFormatWrap_unwrap.2.2 7 (by decide)⟩⟩

set_option maxRecDepth 8000 in
/-- C8: `vertexFormat base count normalized` fails if `count` is not in
1..4, fails if `base` is implementation-specific, fails if `normalized` is
requested but `base`'s component type has no normalized counterpart (only
the 8- and 16-bit integer component types do), and for a valid generic
`base` with admissible `count` and `normalized` it succeeds, returning the
format with `count` components of `base`'s component type and the requested
normalization. -/
theorem vertexFormat_assemble :
    (∀ base cc : Nat, ∀ n : Bool, ¬(1 ≤ cc ∧ cc ≤ 4) →
      vertexFormat base cc n = none) ∧
    (∀ base cc : Nat, ∀ n : Bool,
      isVertexFormatImplementationSpecific base = true →
      vertexFormat base cc n = none) ∧
    (∀ base cc : Nat,
      (vertexFormatComponentFormat base).bind
        vertexFormatNormalizedCounterpart = none →
      vertexFormat base cc true = none) ∧
    (∀ base cc : Nat, ∀ n : Bool, 1 ≤ base → base ≤ 52 → 1 ≤ cc → cc ≤ 4 →
      (n = true → (vertexFormatComponentFormat base).bind
        vertexFormatNormalizedCounterpart ≠ none) →
      ((vertexFormat base cc n).bind vertexFormatComponentCount = some cc ∧
       (vertexFormat base cc n).bind vertexFormatComponentFormat =
         vertexFormatComponentFormat base ∧
       (vertexFormat base cc n).bind isVertexFormatNormalized = some n)) := by
  refine ⟨fun base cc n hcc => ?_, fun base cc n h => ?_,
    fun base cc h => ?_, ?_⟩
  · rcases hb : vertexFormatComponentFormat base with _ | cf0
    · simp [vertexFormat, hb]
    · rcases hc : (if n then vertexFormatNormalizedCounterpart cf0
          else some cf0) with _ | cf
      · simp [vertexFormat, hb, hc]
      · simp only [vertexFormat, hb, hc]
        rw [if_neg (by omega), if_neg (by omega), if_neg (by omega),
          if_neg (by omega)]
  · have hge : 2 ^ 31 ≤ base := by
      apply ge_of_and_two_pow_ne_zero
      simpa [isVertexFormatImplementationSpecific] using h
    have hnone : vertexFormatComponentFormat base = none :=
      vertexFormatComponentFormat_none_of_gt (by
        have : (52 : Nat) < 2 ^ 31 := by norm_num
        omega)
    simp [vertexFormat, hnone]
  · rcases hb : vertexFormatComponentFormat base with _ | cf0
    · simp [vertexFormat, hb]
    · rw [hb, Option.some_bind] at h
      simp [vertexFormat, hb, h]
  · have htrue : ∀ k : Nat, k < 265 → 1 ≤ k / 5 → 1 ≤ k % 5 →
        ((vertexFormatComponentFormat (k / 5)).bind
          vertexFormatNormalizedCounterpart = none) ∨
        ((vertexFormat (k / 5) (k % 5) true).bind vertexFormatComponentCount =
           some (k % 5) ∧
         (vertexFormat (k / 5) (k % 5) true).bind
           vertexFormatComponentFormat =
           vertexFormatComponentFormat (k / 5) ∧
         (vertexFormat (k / 5) (k % 5) true).bind isVertexFormatNormalized =
           some true) := by decide
    have hfalse : ∀ k : Nat, k < 265 → 1 ≤ k / 5 → 1 ≤ k % 5 →
        ((vertexFormat (k / 5) (k % 5) false).bind
           vertexFormatComponentCount = some (k % 5) ∧
         (vertexFormat (k / 5) (k % 5) false).bind
           vertexFormatComponentFormat =
           vertexFormatComponentFormat (k / 5) ∧
         (vertexFormat (k / 5) (k % 5) false).bind isVertexFormatNormalized =
           some false) := by decide
    intro base cc n h1 h2 h3 h4 h5
    have hdiv : (base * 5 + cc) / 5 = base := by omega
    have hmod : (base * 5 + cc) % 5 = cc := by omega
    cases n with
    | false =>
      have h := hfalse (base * 5 + cc) (by omega)
        (by rw [hdiv]; exact h1) (by rw [hmod]; exact h3)
      rw [hdiv, hmod] at h
      exact h
    | true =>
      have h := htrue (base * 5 + cc) (by omega)
        (by rw [hdiv]; exact h1) (by rw [hmod]; exact h3)
      rw [hdiv, hmod] at h
      exact h.resolve_left (h5 rfl)

/-- C8 witness: an invalid component count (`Vector3`, count 5), an
implementation-specific base, a non-normalizable base (`Vector2`, float
components), and a successful assembly (`UnsignedShort`, 3 components,
normalized, giving `Vector3usNormalized`). -/
theorem vertexFormat_assemble_witness :
    vertexFormat VertexFormat.Vector3 5 false = none ∧
    vertexFormat (2 ^ 31 + 0xdead) 1 true = none ∧
    vertexFormat VertexFormat.Vector2 1 true = none ∧
    ((vertexFormat VertexFormat.UnsignedShort 3 true).bind
        vertexFormatComponentCount = some 3 ∧
      (vertexFormat VertexFormat.UnsignedShort 3 true).bind
        vertexFormatComponentFormat =
        vertexFormatComponentFormat VertexFormat.UnsignedShort ∧
      (vertexFormat VertexFormat.UnsignedShort 3 true).bind
        isVertexFormatNormalized = some true) :=
  ⟨vertexFormat_assemble.1 VertexFormat.Vector3 5 false (by decide),
   vertexFormat_assemble.2.1 (2 ^ 31 + 0xdead) 1 true (by decide),
   vertexFormat_assemble.2.2.1 VertexFormat.Vector2 1 (by decide),
   vertexFormat_assemble.2.2.2 VertexFormat.UnsignedShort 3 true (by decide)
     (by decide) (by decide) (by decide) (by decide)⟩

/-- C9 counterexample: the claim says exactly three narrow color types map
to a `*Normalized` format, but the `vertexFormatFor` table maps four
(`Color3ub`, `Color3us`, `Color4ub`, `Color4us`) — the number of element
types whose derived format is normalized is not 3. -/
theorem vertexFormatFor_not_three_exceptions :
    ¬ (((Finset.univ : Finset AttributeType).filter fun t =>
        isVertexFormatNormalized (vertexFormatFor t) = some true).card
      = 3) := by
  decide

/-- C9 amended: the typed `MeshAttributeData` constructor derives the
`VertexFormat` from the element type as the identically-named format for
every supported numeric scalar and vector type, with exactly four narrow
color types (`Color3ub`, `Color3us`, `Color4ub`, `Color4us`) being the only
types mapping to a `*Normalized` counterpart instead, and the color types
being exactly the types with no identically-named format. -/
theorem vertexFormatFor_mapping :
    (∀ t : AttributeType, identicallyNamedVertexFormat t = none ∨
      identicallyNamedVertexFormat t = some (vertexFormatFor t)) ∧
    (∀ t : AttributeType,
      isVertexFormatNormalized (vertexFormatFor t) = some true ↔
        (t = .Color3ub ∨ t = .Color3us ∨ t = .Color4ub ∨ t = .Color4us)) ∧
    (∀ t : AttributeType, identicallyNamedVertexFormat t = none ↔
      (t = .Color3 ∨ t = .Color3h ∨ t = .Color3ub ∨ t = .Color3us ∨
       t = .Color4 ∨ t = .Color4h ∨ t = .Color4ub ∨ t = .Color4us)) := by
  refine ⟨?_, ?_, ?_⟩ <;> decide

/-- C6 counterexample: the offset-only `MeshAttributeData` constructor
accepts a stride of 1 (smaller than the 12-byte element size of
`VertexFormat::Vector3`) and even a stride of 0 (non-positive), because its
assertion is only the `0xffff8000` mask test — contradicting the claim that
both constructor modes reject non-positive and too-small strides. -/
theorem meshAttributeData_offsetOnly_stride_unchecked :
    MeshAttributeData.offsetOnly MeshAttribute.Position
      VertexFormat.Vector3 0 3 1 0 =
      .ok ⟨0, 3, VertexFormat.Vector3, 1, MeshAttribute.Position, 0, true⟩ ∧
    MeshAttributeData.offsetOnly MeshAttribute.Position
      VertexFormat.Vector3 0 3 0 0 =
      .ok ⟨0, 3, VertexFormat.Vector3, 0, MeshAttribute.Position, 0, true⟩ ∧
    vertexFormatSize VertexFormat.Vector3 = some 12 :=
  ⟨rfl, rfl, rfl⟩

/-- C6 amended: the direct-mode (type-erased) constructor fails whenever
the stride is non-positive, exceeds the 16-bit range, or (for a
non-implementation-specific format) is smaller than the byte size of one
element; the offset-only constructor checks only that the 32-bit truncation
of the stride passes the `0xffff8000` mask test — in particular it accepts
any stride in 0..32767 for a compatible non-array attribute, with no
element-size or positivity requirement. -/
theorem meshAttributeData_stride_validation :
    (∀ name format arraySize dataPtr cnt : Nat, ∀ stride : Int,
      ∀ a : MeshAttributeData,
      MeshAttributeData.direct name format arraySize dataPtr cnt stride =
        .ok a →
      (0 < stride ∧ stride ≤ 32767 ∧
        (isVertexFormatImplementationSpecific format = true ∨
          strideFitsFormat format arraySize stride = true))) ∧
    (∀ name format offset cnt : Nat, ∀ stride : Int,
      0 ≤ stride → stride ≤ 32767 →
      isVertexFormatCompatibleWithAttribute name format = true →
      ∃ a, MeshAttributeData.offsetOnly name format offset cnt stride 0 =
        .ok a) := by
  constructor
  · intro name format arraySize dataPtr cnt stride a h
    rw [MeshAttributeData.direct] at h
    split at h
    · exact Except.noConfusion h
    split at h
    · exact Except.noConfusion h
    split at h
    · exact Except.noConfusion h
    split at h
    · exact Except.noConfusion h
    split at h
    · exact Except.noConfusion h
    rename_i h1 h2 h3 h4 h5
    have hs := not_not.mp h1
    refine ⟨hs.1, hs.2, ?_⟩
    by_cases hi : isVertexFormatImplementationSpecific format = true
    · exact Or.inl hi
    · by_cases hfit : strideFitsFormat format arraySize stride = true
      · exact Or.inr hfit
      · exact absurd ⟨fun hh => hi hh, fun hh => hfit hh⟩ h2
  · intro name format offset cnt stride h0 h1 hc
    have h32 : (2 : Int) ^ 32 = 4294967296 := by norm_num
    have hlt32 : stride < (2 : Int) ^ 32 := by
      rw [h32]
      omega
    have hu : uint32Of stride = stride.toNat := by
      unfold uint32Of
      rw [Int.emod_eq_of_lt h0 hlt32]
    have hlt : stride.toNat < 32768 := by omega
    have hmask : stride.toNat &&& 0xffff8000 = 0 := by
      have hle : stride.toNat &&& 0xffff8000 ≤ stride.toNat :=
        Nat.and_le_left
      have hmod : (stride.toNat &&& 0xffff8000) % 2 ^ 15 = 0 := by
        rw [← Nat.and_pow_two_sub_one_eq_mod, Nat.and_assoc]
        have hz : (0xffff8000 : Nat) &&& (2 ^ 15 - 1) = 0 := by decide
        rw [hz, Nat.and_zero]
      have h15 : (2 : Nat) ^ 15 = 32768 := by norm_num
      rw [h15] at hmod
      omega
    refine ⟨⟨offset, cnt, format, int16Of stride, name, 0, true⟩, ?_⟩
    rw [MeshAttributeData.offsetOnly,
      if_neg (by rw [hu]; exact not_not_intro hmask),
      if_neg (by simp [hc]), if_neg (by simp), if_neg (by simp)]

/-- C6 witness: a successful direct-mode construction (`Position`,
`Vector2`, stride 8) satisfying the extracted stride conditions, and a
successful offset-only construction with stride 1 for `Vector3`. -/
theorem meshAttributeData_stride_validation_witness :
    ((0 : Int) < 8 ∧ (8 : Int) ≤ 32767 ∧
      (isVertexFormatImplementationSpecific VertexFormat.Vector2 = true ∨
        strideFitsFormat VertexFormat.Vector2 0 8 = true)) ∧
    (∃ a, MeshAttributeData.offsetOnly MeshAttribute.Position
      VertexFormat.Vector3 0 3 1 0 = .ok a) :=
  ⟨meshAttributeData_stride_validation.1 MeshAttribute.Position
      VertexFormat.Vector2 0 0 2 8
      ⟨0, 2, VertexFormat.Vector2, 8, MeshAttribute.Position, 0, false⟩ rfl,
   meshAttributeData_stride_validation.2 MeshAttribute.Position
      VertexFormat.Vector3 0 3 1 (by decide) (by decide) (by decide)⟩

/-- C2: constructing a `MeshData` where the first offending attribute's
resolved byte range is not contained in the passed vertex buffer fails with
a containment error carrying that attribute's index and both the
attribute's and the buffer's byte ranges; and whenever any attribute is not
contained, no container is produced at all. -/
theorem meshData_attribute_not_contained
    (primitive : Nat) (indexDataFlags vertexDataFlags : DataFlags)
    (indexBuffer vertexBuffer : Buffer) (indices : MeshIndexData)
    (pre : List MeshAttributeData) (bad : MeshAttributeData)
    (post : List MeshAttributeData)
    (hidx : indices.type = 0 ∨
      viewContained indexBuffer indices.view = true)
    (hpre : ∀ x ∈ pre, ¬(x.format = 0 ∧ x.name = 0) ∧
      x.vertexCount = meshVertexCountOf (pre ++ bad :: post) ∧
      attributeContained vertexBuffer x = true)
    (hpad : ¬(bad.format = 0 ∧ bad.name = 0))
    (hcnt : bad.vertexCount = meshVertexCountOf (pre ++ bad :: post))
    (hbad : attributeContained vertexBuffer bad = false) :
    MeshData.construct primitive indexDataFlags indexBuffer indices
        vertexDataFlags vertexBuffer (pre ++ bad :: post) =
      .error (.attributeNotContained pre.length
        (attributeRange vertexBuffer bad) (bufferRange vertexBuffer)) ∧
    ∀ m, MeshData.construct primitive indexDataFlags indexBuffer indices
        vertexDataFlags vertexBuffer (pre ++ bad :: post) ≠ .ok m := by
  constructor
  · rw [MeshData.construct,
      if_neg (by
        rintro ⟨hne, hnc⟩
        rcases hidx with h | h
        · exact hne h
        · exact hnc h),
      if_neg (by simp),
      checkAttributes_first_not_contained pre bad post hpad hcnt hbad 0
        hpre]
    simp
  · intro m hok
    rw [MeshData.construct] at hok
    split at hok
    · exact Except.noConfusion hok
    split at hok
    · exact Except.noConfusion hok
    split at hok
    · exact Except.noConfusion hok
    rename_i hnone
    have hcontained := checkAttributes_none_contained 0 _ hnone bad
      (by simp)
    rw [hbad] at hcontained
    exact Bool.noConfusion hcontained

/-- C2 witness: the two-attribute scenario of the containment test — the
first attribute covers the buffer, the second points outside it;
construction fails naming attribute 1 and the two ranges. -/
theorem meshData_attribute_not_contained_witness :
    MeshData.construct 1 ⟨true, true⟩ ⟨0, []⟩ MeshIndexData.null
        ⟨true, true⟩ ⟨100, List.replicate 24 0⟩
        ([⟨100, 3, VertexFormat.Vector2, 8, MeshAttribute.Position, 0,
            false⟩] ++
          ⟨500, 3, VertexFormat.Vector2, 8, MeshAttribute.Position, 0,
            false⟩ :: []) =
      .error (.attributeNotContained 1 (500, 524) (100, 124)) :=
  (meshData_attribute_not_contained 1 ⟨true, true⟩ ⟨true, true⟩ ⟨0, []⟩
    ⟨100, List.replicate 24 0⟩ MeshIndexData.null
    [⟨100, 3, VertexFormat.Vector2, 8, MeshAttribute.Position, 0, false⟩]
    ⟨500, 3, VertexFormat.Vector2, 8, MeshAttribute.Position, 0, false⟩
    [] (Or.inl rfl) (by decide) (by decide) (by decide) (by decide)).1

/-- C3: for a `MeshData` constructed over index and vertex buffers whose
flags lack `Mutable`, every mutable accessor (`mutableIndexData`,
`mutableVertexData`, `mutableIndices`, `mutableAttribute` and their typed
variants) fails with the corresponding not-mutable error, while the const
accessors succeed: `indexData` / `vertexData` return exactly the underlying
buffers' bytes, `indices` resolves to rows of the index buffer's bytes, and
`attribute` returns rows of the vertex buffer's bytes. -/
theorem meshData_mutable_access_gate
    (primitive : Nat) (fI fV : DataFlags) (bI bV : Buffer)
    (idx : MeshIndexData) (attrs : List MeshAttributeData) (m : MeshData)
    (hfI : fI.mutableData = false) (hfV : fV.mutableData = false)
    (hok : MeshData.construct primitive fI bI idx fV bV attrs = .ok m) :
    (m.mutableIndexData = .error
        "Trade::MeshData::mutableIndexData(): index data not mutable" ∧
      m.mutableVertexData = .error
        "Trade::MeshData::mutableVertexData(): vertex data not mutable" ∧
      m.mutableIndices = .error
        "Trade::MeshData::mutableIndices(): index data not mutable" ∧
      (∀ t, m.mutableIndicesTyped t = .error
        "Trade::MeshData::mutableIndices(): index data not mutable") ∧
      (∀ id, m.mutableAttribute id = .error
        "Trade::MeshData::mutableAttribute(): vertex data not mutable") ∧
      (∀ id t, m.mutableAttributeTyped id t = .error
        "Trade::MeshData::mutableAttribute(): vertex data not mutable")) ∧
    (m.indexData = bI.bytes ∧
      m.vertexData = bV.bytes ∧
      (idx.type ≠ 0 → m.indices = readRows bI.bytes
        (idx.view.ptr - bI.base) ((meshIndexTypeSize idx.type).getD 1)
        ((meshIndexTypeSize idx.type).getD 1)
        (idx.view.byteLength / (meshIndexTypeSize idx.type).getD 1)) ∧
      (∀ id a, attrs[id]? = some a →
        m.attribute id = .ok (readRows bV.bytes
          (a.resolvedPtr bV.base - bV.base) a.stride.toNat
          (MeshData.attributeRowSize a) (meshVertexCountOf attrs)))) := by
  have hm := construct_ok_inversion hok
  subst hm
  refine ⟨⟨?_, ?_, ?_, fun t => ?_, fun id => ?_, fun id t => ?_⟩,
    rfl, rfl, fun hne => ?_, fun id a ha => ?_⟩
  · simp [MeshData.mutableIndexData, hfI]
  · simp [MeshData.mutableVertexData, hfV]
  · simp [MeshData.mutableIndices, hfI]
  · simp [MeshData.mutableIndicesTyped, hfI]
  · simp [MeshData.mutableAttribute, hfV]
  · simp [MeshData.mutableAttributeTyped, hfV]
  · simp [MeshData.indices, hne]
  · simp [MeshData.attribute, ha]

/-- C3 witness: the not-owned test scenario — 3 `UnsignedShort` indices and
2 `Vector2` positions in borrowed immutable buffers; the mutable accessors
fail and the const accessors return the buffers' bytes. -/
theorem meshData_mutable_access_gate_witness :
    ∃ m, MeshData.construct 1 ⟨false, false⟩ ⟨1000, [0, 0, 1, 0, 0, 0]⟩
        ⟨2, ⟨1000, 6⟩⟩ ⟨false, false⟩ ⟨2000, List.replicate 16 0⟩
        [⟨2000, 2, VertexFormat.Vector2, 8, MeshAttribute.Position, 0,
          false⟩] = .ok m ∧
      m.mutableIndexData = .error
        "Trade::MeshData::mutableIndexData(): index data not mutable" ∧
      m.mutableVertexData = .error
        "Trade::MeshData::mutableVertexData(): vertex data not mutable" ∧
      m.indexData = [0, 0, 1, 0, 0, 0] ∧
      m.vertexData = List.replicate 16 0 := by
  refine ⟨_, rfl, ?_, ?_, ?_, ?_⟩
  · exact (meshData_mutable_access_gate 1 ⟨false, false⟩ ⟨false, false⟩
      ⟨1000, [0, 0, 1, 0, 0, 0]⟩ ⟨2000, List.replicate 16 0⟩
      ⟨2, ⟨1000, 6⟩⟩
      [⟨2000, 2, VertexFormat.Vector2, 8, MeshAttribute.Position, 0,
        false⟩] _ rfl rfl rfl).1.1
  · exact (meshData_mutable_access_gate 1 ⟨false, false⟩ ⟨false, false⟩
      ⟨1000, [0, 0, 1, 0, 0, 0]⟩ ⟨2000, List.replicate 16 0⟩
      ⟨2, ⟨1000, 6⟩⟩
      [⟨2000, 2, VertexFormat.Vector2, 8, MeshAttribute.Position, 0,
        false⟩] _ rfl rfl rfl).1.2.1
  · exact (meshData_mutable_access_gate 1 ⟨false, false⟩ ⟨false, false⟩
      ⟨1000, [0, 0, 1, 0, 0, 0]⟩ ⟨2000, List.replicate 16 0⟩
      ⟨2, ⟨1000, 6⟩⟩
      [⟨2000, 2, VertexFormat.Vector2, 8, MeshAttribute.Position, 0,
        false⟩] _ rfl rfl rfl).2.1
  · exact (meshData_mutable_access_gate 1 ⟨false, false⟩ ⟨false, false⟩
      ⟨1000, [0, 0, 1, 0, 0, 0]⟩ ⟨2000, List.replicate 16 0⟩
      ⟨2, ⟨1000, 6⟩⟩
      [⟨2000, 2, VertexFormat.Vector2, 8, MeshAttribute.Position, 0,
        false⟩] _ rfl rfl rfl).2.2.1

/-- C4: after `releaseVertexData()` on a `MeshData` with attributes, the
vertex count is 0 and the `attribute` accessor reports 0 elements for every
attribute, `attributeOffset` still reports each attribute's original byte
offset, the vertex-data placeholder is zero-length with the original base
address preserved, and the released array is the original vertex bytes —
in particular, each attribute's pre-release rows are slices of the released
array at those offsets. -/
theorem meshData_release_vertex_data (m : MeshData)
    (_hattrs : m.attributes ≠ []) :
    (m.releaseVertexData).1 = m.vertexData ∧
    (m.releaseVertexData).2.vertexCount = 0 ∧
    (m.releaseVertexData).2.vertexData = [] ∧
    (m.releaseVertexData).2.vertexBase = m.vertexBase ∧
    (∀ id, (m.releaseVertexData).2.attributeOffset id =
      m.attributeOffset id) ∧
    (∀ id a, m.attributes[id]? = some a →
      (m.releaseVertexData).2.attribute id = .ok [] ∧
      m.attribute id = .ok (readRows (m.releaseVertexData).1
        (a.resolvedPtr m.vertexBase - m.vertexBase) a.stride.toNat
        (MeshData.attributeRowSize a) m.vertexCount)) := by
  refine ⟨rfl, rfl, rfl, rfl, fun id => rfl, fun id a ha => ⟨?_, ?_⟩⟩
  · simp [MeshData.releaseVertexData, MeshData.attribute, ha, readRows]
  · simp [MeshData.releaseVertexData, MeshData.attribute, ha]

/-- C4 witness: releasing the vertex data of a two-vertex single-attribute
mesh zeroes the reported vertex count and empties the placeholder while
the attribute offset survives. -/
theorem meshData_release_vertex_data_witness :
    (MeshData.attributes ⟨1, 2, 0, ⟨true, true⟩, ⟨true, true⟩, 0, [], 0, 0,
        2000, List.replicate 16 7,
        [⟨2004, 2, VertexFormat.Vector2, 8, MeshAttribute.Position, 0,
          false⟩]⟩ ≠ []) ∧
    ((MeshData.releaseVertexData ⟨1, 2, 0, ⟨true, true⟩, ⟨true, true⟩, 0,
        [], 0, 0, 2000, List.replicate 16 7,
        [⟨2004, 2, VertexFormat.Vector2, 8, MeshAttribute.Position, 0,
          false⟩]⟩).2.vertexCount = 0 ∧
      (MeshData.releaseVertexData ⟨1, 2, 0, ⟨true, true⟩, ⟨true, true⟩, 0,
        [], 0, 0, 2000, List.replicate 16 7,
        [⟨2004, 2, VertexFormat.Vector2, 8, MeshAttribute.Position, 0,
          false⟩]⟩).2.vertexData = []) :=
  ⟨by decide,
   (meshData_release_vertex_data ⟨1, 2, 0, ⟨true, true⟩, ⟨true, true⟩, 0,
      [], 0, 0, 2000, List.replicate 16 7,
      [⟨2004, 2, VertexFormat.Vector2, 8, MeshAttribute.Position, 0,
        false⟩]⟩ (by decide)).2.1,
   (meshData_release_vertex_data ⟨1, 2, 0, ⟨true, true⟩, ⟨true, true⟩, 0,
      [], 0, 0, 2000, List.replicate 16 7,
      [⟨2004, 2, VertexFormat.Vector2, 8, MeshAttribute.Position, 0,
        false⟩]⟩ (by decide)).2.2.1⟩

/-- C5: a mesh whose `Position` attribute has format
`Vector2ubNormalized` and stores the element bytes 255, 0 decodes through
`positions2DAsArray()` to exactly (1, 0): unsigned normalized 8-bit
integers map the range 0..255 affinely onto 0.0..1.0. -/
theorem positions2DAsArray_vector2ubNormalized :
    ∃ a m,
      MeshAttributeData.direct MeshAttribute.Position
        VertexFormat.Vector2ubNormalized 0 0 1 2 = .ok a ∧
      MeshData.construct 1 ⟨true, true⟩ ⟨0, []⟩ MeshIndexData.null
        ⟨true, true⟩ ⟨0, [255, 0]⟩ [a] = .ok m ∧
      m.positions2DAsArray = .ok [(1, 0)] := by
  exact ⟨⟨0, 1, VertexFormat.Vector2ubNormalized, 2,
    MeshAttribute.Position, 0, false⟩, _, rfl, rfl, rfl⟩

/-- C10: a `MeshData` built from a `MeshIndexData` carrying a concrete
index type (`UnsignedInt`) over an empty view reports `isIndexed() = true`
with `indexCount() = 0`, and the vertex count comes from the attributes;
only the nullptr-constructed `MeshIndexData` (empty element type 0) makes
the mesh non-indexed. -/
theorem meshData_zero_indices :
    ∃ idx m,
      MeshIndexData.make 3 ⟨0, 0⟩ = .ok idx ∧
      MeshData.construct 1 ⟨true, true⟩ ⟨0, []⟩ idx ⟨true, true⟩
        ⟨0, List.replicate 36 0⟩
        [⟨0, 3, VertexFormat.Vector3, 12, MeshAttribute.Position, 0,
          false⟩] = .ok m ∧
      m.isIndexed = true ∧ m.indexCount = .ok 0 ∧ m.vertexCount = 3 ∧
      MeshIndexData.null.type = 0 ∧
      (∃ m2, MeshData.construct 1 ⟨true, true⟩ ⟨0, []⟩ MeshIndexData.null
        ⟨true, true⟩ ⟨0, List.replicate 36 0⟩
        [⟨0, 3, VertexFormat.Vector3, 12, MeshAttribute.Position, 0,
          false⟩] = .ok m2 ∧ m2.isIndexed = false) := by
  refine ⟨⟨3, ⟨0, 0⟩⟩, _, rfl, rfl, rfl, rfl, rfl, rfl, _, rfl, rfl⟩

end Magnum
